import Mathlib

/-!
Shallow embedding of the `autonomous-blog` pipeline core:
`src/pipeline/keyword_discovery.py` (class `KeywordDiscovery`) and
`src/pipeline/run_pipeline.py` (class `BlogPipeline` and `main`).

Conventions of the embedding:
* A Python value that is either a number or the string sentinel
  `"unknown"` becomes `MetricValue` (rationals represent the numeric
  JSON literals exactly; no arithmetic is performed on them).
* A keyword-data dict becomes the record `KeywordResult`; the optional
  `generated_at` key becomes an `Option String`.
* A call that may raise becomes `Except String α`, the `String` being
  the exception message (`str(e)` in the source).
* A provider fetch (`_try_serpapi` and friends, as invoked inside the
  `try`/`except` blocks of `discover`) is summarized by `FetchOutcome`:
  it either raises, or returns a value; a returned value is `none` when
  it is falsy in Python (`None` or empty) and `some r` when it is a
  truthy keyword dict, matching the `if not result` tests in `discover`.
* The on-disk cache directory becomes `CacheState`: `entries` maps a
  file name to its parsed content when the file exists, `readFails`
  marks files whose `open`/`json.load` raises, `writeFails` marks file
  names whose `open(..., mode w)`/`json.dump` raises.
* Functions that observe which collaborators were invoked additionally
  return the ordered list of invocation names, so that claims of the
  form "X is never invoked" are statements about that trace.
-/

inductive MetricValue where
  | num (q : ℚ)
  | unknown
deriving DecidableEq, Repr

structure KeywordResult where
  primary_keyword : String
  related_queries : List String
  top_urls : List String
  search_volume : MetricValue
  cpc : MetricValue
  competition : MetricValue
  source : String
  generated_at : Option String
deriving DecidableEq, Repr

/-- Outcome of one provider fetch attempt inside `discover`:
`raises msg` models the `except Exception` path, `returns none` models a
falsy return value, `returns (some r)` a truthy keyword dict. -/
inductive FetchOutcome where
  | raises (msg : String)
  | returns (r : Option KeywordResult)
deriving DecidableEq, Repr

/-- The behaviours of the three fetch methods for the one topic of a
`discover` call (`_try_serpapi`, `_try_keywordsurfer`,
`_try_google_trends`). -/
structure ProviderEnv where
  serpapi : FetchOutcome
  keywordsurfer : FetchOutcome
  google_trends : FetchOutcome
deriving DecidableEq, Repr

/-- Python `s.replace(' ', repl)` for a one-character pattern, as the
source uses it on topics: every space character is replaced by `repl`
independently (no whitespace collapsing).  Embedded character-wise so
that it evaluates by kernel reduction. -/
def pyReplaceSpace (s repl : String) : String :=
  String.mk ((s.data.map (fun a => if a = ' ' then repl.data else [a])).flatten)

/-- The value bound to `result` after one `try`/`except` block of
`discover`: `none` when the provider raised (the block leaves `result`
falsy) or returned a falsy value, `some r` when it returned a truthy
dict. -/
def tryProvider : FetchOutcome → Option KeywordResult
  | FetchOutcome.raises _ => none
  | FetchOutcome.returns r => r

/-- The sequence of guarded attempts in `discover`: each provider is
invoked only while `result` is still falsy; the first truthy return
value is kept.  Returns the final value of `result` together with the
names of the providers invoked, in order. -/
def runChain : List (String × FetchOutcome) → Option KeywordResult × List String
  | [] => (none, [])
  | (name, out) :: rest =>
    match tryProvider out with
    | some r => (some r, [name])
    | none =>
      let tail := runChain rest
      (tail.1, name :: tail.2)

/-- The fixed provider order hard-coded in `discover`: SerpAPI, then
KeywordSurfer, then Google Trends. -/
def providerChain (env : ProviderEnv) : Option KeywordResult × List String :=
  runChain [(("serpapi"), env.serpapi), (("keywordsurfer"), env.keywordsurfer),
    (("google-trends"), env.google_trends)]

/-- `_fallback_method`: the offline generator; `now` stands for
`datetime.now().isoformat()`. -/
def fallback_method (topic : String) (now : String) : KeywordResult :=
  { primary_keyword := topic
  , related_queries :=
      [ topic ++ " guide"
      , "how to " ++ topic
      , "best " ++ topic ++ " practices"
      , topic ++ " examples"
      , topic ++ " tutorial"
      , topic ++ " for beginners"
      , "advanced " ++ topic
      , topic ++ " tips"
      , topic ++ " 2025"
      , topic ++ " tools" ]
  , top_urls := []
  , search_volume := MetricValue.unknown
  , cpc := MetricValue.unknown
  , competition := MetricValue.unknown
  , source := "fallback_method"
  , generated_at := some now }

/-- The simulated `_try_serpapi` return value. -/
def serpapi_result (topic : String) : KeywordResult :=
  { primary_keyword := topic
  , related_queries :=
      [ topic ++ " best practices"
      , topic ++ " examples"
      , "how to " ++ topic
      , topic ++ " tutorial"
      , topic ++ " for beginners" ]
  , top_urls :=
      [ "https://example.com/" ++ (pyReplaceSpace topic ("-")) ++ "-guide"
      , "https://example.org/learn-" ++ (pyReplaceSpace topic ("-"))
      , "https://tutorial.com/" ++ (pyReplaceSpace topic ("_")) ++ "_101" ]
  , search_volume := MetricValue.num 1200
  , cpc := MetricValue.num (0.75 : ℚ)
  , competition := MetricValue.num (0.65 : ℚ)
  , source := "serpapi_simulation"
  , generated_at := none }

/-- The simulated `_try_keywordsurfer` return value. -/
def keywordsurfer_result (topic : String) : KeywordResult :=
  { primary_keyword := topic
  , related_queries :=
      [ topic ++ " guide"
      , "best " ++ topic ++ " practices"
      , topic ++ " tips and tricks"
      , topic ++ " for professionals"
      , "advanced " ++ topic ]
  , top_urls :=
      [ "https://guide.com/complete-" ++ (pyReplaceSpace topic ("-")) ++ "-guide"
      , "https://blog.example.com/mastering-" ++ (pyReplaceSpace topic ("-"))
      , "https://academy.example.org/" ++ (pyReplaceSpace topic ("_")) ++ "_masterclass" ]
  , search_volume := MetricValue.num 980
  , cpc := MetricValue.num (0.82 : ℚ)
  , competition := MetricValue.num (0.58 : ℚ)
  , source := "keywordsurfer_simulation"
  , generated_at := none }

/-- The simulated `_try_google_trends` return value. -/
def google_trends_result (topic : String) : KeywordResult :=
  { primary_keyword := topic
  , related_queries :=
      [ topic ++ " 2025"
      , "latest " ++ topic ++ " trends"
      , topic ++ " innovations"
      , "future of " ++ topic
      , topic ++ " industry insights" ]
  , top_urls :=
      [ "https://trends.google.com/trends/explore?q=" ++ (pyReplaceSpace topic ("%20"))
      , "https://news.example.com/" ++ (pyReplaceSpace topic ("-")) ++ "-trends-2025"
      , "https://research.example.org/future-of-" ++ (pyReplaceSpace topic ("-")) ]
  , search_volume := MetricValue.num 850
  , cpc := MetricValue.num (0.65 : ℚ)
  , competition := MetricValue.num (0.72 : ℚ)
  , source := "google_trends_simulation"
  , generated_at := none }

/-- The cache file name derived in `discover`:
`f"{topic.replace(' ', '_')}.json"`. -/
def cacheFileName (topic : String) : String :=
  (pyReplaceSpace topic ("_")) ++ ".json"

/-- State of the cache directory.  `entries name` is the parsed content
of file `name` when it exists (`os.path.exists` is true), `readFails
name` says opening or JSON-parsing that existing file raises,
`writeFails name` says opening that file for writing or dumping to it
raises. -/
structure CacheState where
  entries : String → Option KeywordResult
  readFails : String → Bool
  writeFails : String → Bool

/-- A fresh cache directory: no files, no I/O faults. -/
def emptyCache : CacheState :=
  { entries := fun _ => none
  , readFails := fun _ => false
  , writeFails := fun _ => false }

/-- `KeywordDiscovery.discover(topic)`.  Returns the outcome (`ok`
result, or `error` when an uncaught exception escapes `discover`), the
cache state afterwards, and the ordered names of the collaborators
invoked (providers, and `"fallback_method"` when the offline generator
runs).  The cache read and the cache write are not inside any
`try`/`except` in the source, so their failures escape as
`Except.error`. -/
def discover (env : ProviderEnv) (now : String) (cache : CacheState)
    (topic : String) : Except String KeywordResult × CacheState × List String :=
  let key := cacheFileName topic
  match cache.entries key with
  | some r =>
    if cache.readFails key then
      (Except.error ("cache read failure"), cache, [])
    else
      (Except.ok r, cache, [])
  | none =>
    let chain := providerChain env
    let result :=
      match chain.1 with
      | some r => r
      | none => fallback_method topic now
    let invoked :=
      match chain.1 with
      | some _ => chain.2
      | none => chain.2 ++ [("fallback_method")]
    if cache.writeFails key then
      (Except.error ("cache write failure"), cache, invoked)
    else
      (Except.ok result,
       { cache with entries := fun k => if k = key then some result else cache.entries k },
       invoked)

/-- The dict returned by `BlogPipeline.run`: either
`{"status": "success", "url": ..., "social_posts": ..., "email_draft": ...}`
or `{"status": "error", "message": ...}`.  The success constructor
carries exactly the three data fields of the source dict. -/
inductive PipelineRunResult (U S E : Type) where
  | success (url : U) (social_posts : S) (email_draft : E)
  | error (message : String)
deriving DecidableEq, Repr

/-- The nine stage collaborators as invoked inside `BlogPipeline.run`,
each modelled as a call that may raise.  Type parameters: `K` keyword
data, `C` content, `I` image collection, `U` published URL, `M`
monetized content, `S` social posts, `E` email draft. -/
structure StageEnv (K C I U M S E : Type) where
  keyword_discover : String → Except String K
  content_create : K → Except String C
  grammar_check : C → Except String C
  visual_generate : C → Except String I
  publish_publish : C → I → Except String U
  monetize_apply : C → U → Except String M
  social_promote : U → C → Except String S
  email_draft_stage : U → C → Except String E
  analytics_setup_tracking : U → Except String Unit

/-- The orchestrator names of the nine stages, in the fixed order of
`BlogPipeline.run`. -/
def stageOrder : List String :=
  [("keyword"), ("content"), ("grammar"), ("visual"), ("publish"),
   ("monetize"), ("social"), ("email"), ("analytics")]

/-- `BlogPipeline.run(topic)`: the fixed nine-stage sequence inside one
`try`, with the `except Exception` handler turning the first raised
message into an error-status result.  Also returns the ordered names of
the stages actually invoked.  Note stage 3 rebinds `content`, so stages
4-8 consume the grammar-checked content; the monetization output `m` is
bound but never used again. -/
def run {K C I U M S E : Type} (env : StageEnv K C I U M S E)
    (topic : String) : PipelineRunResult U S E × List String :=
  match env.keyword_discover topic with
  | Except.error e => (PipelineRunResult.error e, [("keyword")])
  | Except.ok keywords =>
    match env.content_create keywords with
    | Except.error e => (PipelineRunResult.error e, [("keyword"), ("content")])
    | Except.ok content0 =>
      match env.grammar_check content0 with
      | Except.error e =>
        (PipelineRunResult.error e, [("keyword"), ("content"), ("grammar")])
      | Except.ok content =>
        match env.visual_generate content with
        | Except.error e =>
          (PipelineRunResult.error e,
           [("keyword"), ("content"), ("grammar"), ("visual")])
        | Except.ok images =>
          match env.publish_publish content images with
          | Except.error e =>
            (PipelineRunResult.error e,
             [("keyword"), ("content"), ("grammar"), ("visual"), ("publish")])
          | Except.ok url =>
            match env.monetize_apply content url with
            | Except.error e =>
              (PipelineRunResult.error e,
               [("keyword"), ("content"), ("grammar"), ("visual"), ("publish"),
                ("monetize")])
            | Except.ok _ =>
              match env.social_promote url content with
              | Except.error e =>
                (PipelineRunResult.error e,
                 [("keyword"), ("content"), ("grammar"), ("visual"), ("publish"),
                  ("monetize"), ("social")])
              | Except.ok social_posts =>
                match env.email_draft_stage url content with
                | Except.error e =>
                  (PipelineRunResult.error e,
                   [("keyword"), ("content"), ("grammar"), ("visual"),
                    ("publish"), ("monetize"), ("social"), ("email")])
                | Except.ok email_draft =>
                  match env.analytics_setup_tracking url with
                  | Except.error e =>
                    (PipelineRunResult.error e,
                     [("keyword"), ("content"), ("grammar"), ("visual"),
                      ("publish"), ("monetize"), ("social"), ("email"),
                      ("analytics")])
                  | Except.ok _ =>
                    (PipelineRunResult.success url social_posts email_draft,
                     stageOrder)

/-- The value of `result["status"]`. -/
def resultStatus {U S E : Type} : PipelineRunResult U S E → String
  | PipelineRunResult.success _ _ _ => "success"
  | PipelineRunResult.error _ => "error"

/-- A JSON value as it appears in the emitted result document. -/
inductive JVal where
  | jstr (s : String)
  | jlist (xs : List String)
deriving DecidableEq, Repr

/-- The JSON document `json.dumps` serializes in `main`: the run result
dict as an ordered list of key/value pairs. -/
def resultDoc (r : PipelineRunResult String (List String) String) :
    List (String × JVal) :=
  match r with
  | PipelineRunResult.success u s e =>
    [(("status"), JVal.jstr ("success")), (("url"), JVal.jstr u),
     (("social_posts"), JVal.jlist s), (("email_draft"), JVal.jstr e)]
  | PipelineRunResult.error m =>
    [(("status"), JVal.jstr ("error")), (("message"), JVal.jstr m)]

/-- The tail of `main`: `print(json.dumps(result, indent=2))` followed
by `return 0 if result["status"] == "success" else 1`.  The first
component is the document written to standard output, the second the
process exit code. -/
def mainModel (r : PipelineRunResult String (List String) String) :
    List (String × JVal) × Nat :=
  (resultDoc r, if resultStatus r = "success" then 0 else 1)

/-- C8: the cache key is the topic with every space character replaced
by an underscore (no whitespace collapsing), so `"machine learning"`
and `"machine  learning"` map to distinct cache keys and do not
collide. -/
theorem cache_key_no_whitespace_collapse :
    cacheFileName ("machine learning") = "machine_learning.json" ∧
    cacheFileName ("machine  learning") = "machine__learning.json" ∧
    cacheFileName ("machine learning") ≠ cacheFileName ("machine  learning") :=
  ⟨by decide, by decide, by decide⟩

/-- C9: `main` emits the run result document to standard output
regardless of status, and its return value (the process exit code) is
`0` exactly when the result status is `"success"` and `1` otherwise. -/
theorem main_output_and_exit_code (r : PipelineRunResult String (List String) String) :
    (mainModel r).1 = resultDoc r ∧
    ((mainModel r).2 = 0 ↔ resultStatus r = "success") ∧
    ((mainModel r).2 = 1 ↔ resultStatus r ≠ "success") := by
  refine ⟨rfl, ?_, ?_⟩ <;> cases r <;> simp [mainModel, resultStatus]

/-- C10: a provider fetch that returns a falsy value without raising is
treated exactly like a provider that raises: `discover` behaves
identically in the two cases (same outcome, same cache, same
invocation trace), and at the chain level a falsy head provider makes
the chain proceed to the remaining providers. -/
theorem falsy_provider_treated_as_failure (env : ProviderEnv) (now : String)
    (cache : CacheState) (topic : String) (m : String) :
    (discover { env with serpapi := FetchOutcome.returns none } now cache topic =
      discover { env with serpapi := FetchOutcome.raises m } now cache topic) ∧
    (discover { env with keywordsurfer := FetchOutcome.returns none } now cache topic =
      discover { env with keywordsurfer := FetchOutcome.raises m } now cache topic) ∧
    (discover { env with google_trends := FetchOutcome.returns none } now cache topic =
      discover { env with google_trends := FetchOutcome.raises m } now cache topic) ∧
    ∀ n : String, ∀ rest : List (String × FetchOutcome),
      runChain ((n, FetchOutcome.returns none) :: rest) =
        ((runChain rest).1, n :: (runChain rest).2) := by
  refine ⟨?_, ?_, ?_, ?_⟩
  · cases h : cache.entries (cacheFileName topic) <;>
      simp [discover, providerChain, runChain, tryProvider, h]
  · cases h : cache.entries (cacheFileName topic) <;>
      simp [discover, providerChain, runChain, tryProvider, h]
  · cases h : cache.entries (cacheFileName topic) <;>
      simp [discover, providerChain, runChain, tryProvider, h]
  · intro n rest
    simp [runChain, tryProvider]

/-- C4: when a cache entry exists for the topic (and reading it does
not fail), `discover` returns the cached `KeywordResult` as-is — the
whole record, its `source` field included — leaves the cache unchanged,
and invokes no provider and not the fallback generator (empty
invocation trace). -/
theorem discover_cache_hit_authoritative (env : ProviderEnv) (now : String)
    (cache : CacheState) (topic : String) (r : KeywordResult)
    (hentry : cache.entries (cacheFileName topic) = some r)
    (hread : cache.readFails (cacheFileName topic) = false) :
    discover env now cache topic = (Except.ok r, cache, []) := by
  simp [discover, hentry, hread]

/-- A cache that holds an entry (with a non-fallback `source`) for
every file name, with no I/O faults. -/
def hitCacheW : CacheState :=
  { entries := fun _ => some (serpapi_result ("espresso"))
  , readFails := fun _ => false
  , writeFails := fun _ => false }

/-- Providers that all raise. -/
def envAllFailW : ProviderEnv :=
  { serpapi := FetchOutcome.raises ("down")
  , keywordsurfer := FetchOutcome.raises ("down")
  , google_trends := FetchOutcome.raises ("down") }

/-- Witness for C4 at a concrete cache, topic and provider
environment. -/
theorem discover_cache_hit_authoritative_witness :
    discover envAllFailW ("now") hitCacheW ("espresso") =
      (Except.ok (serpapi_result ("espresso")), hitCacheW, []) :=
  discover_cache_hit_authoritative envAllFailW ("now") hitCacheW ("espresso")
    (serpapi_result ("espresso")) rfl rfl

/-- C2: on a cache miss (with a working cache write), providers are
tried in the fixed order serpapi, keywordsurfer, google-trends; the
first one whose fetch returns a truthy result determines the returned
`KeywordResult` exactly and stops the chain (later providers never
invoked), and the invocation trace is always an initial segment of the
fixed order (each provider invoked at most once). -/
theorem discover_provider_priority (env : ProviderEnv) (now : String)
    (cache : CacheState) (topic : String)
    (hmiss : cache.entries (cacheFileName topic) = none)
    (hw : cache.writeFails (cacheFileName topic) = false) :
    (∀ r : KeywordResult, env.serpapi = FetchOutcome.returns (some r) →
        (discover env now cache topic).1 = Except.ok r ∧
        (discover env now cache topic).2.2 = [("serpapi")]) ∧
    (∀ r : KeywordResult, tryProvider env.serpapi = none →
        env.keywordsurfer = FetchOutcome.returns (some r) →
        (discover env now cache topic).1 = Except.ok r ∧
        (discover env now cache topic).2.2 = [("serpapi"), ("keywordsurfer")]) ∧
    (∀ r : KeywordResult, tryProvider env.serpapi = none →
        tryProvider env.keywordsurfer = none →
        env.google_trends = FetchOutcome.returns (some r) →
        (discover env now cache topic).1 = Except.ok r ∧
        (discover env now cache topic).2.2 =
          [("serpapi"), ("keywordsurfer"), ("google-trends")]) ∧
    (discover env now cache topic).2.2 ∈
      ([ [("serpapi")], [("serpapi"), ("keywordsurfer")],
         [("serpapi"), ("keywordsurfer"), ("google-trends")],
         [("serpapi"), ("keywordsurfer"), ("google-trends"), ("fallback_method")] ] :
        List (List String)) := by
  refine ⟨?_, ?_, ?_, ?_⟩
  · intro r h1
    constructor <;>
      simp [discover, hmiss, hw, providerChain, runChain, tryProvider, h1]
  · intro r h1 h2
    have h2x : tryProvider env.keywordsurfer = some r := by
      simp [tryProvider, h2]
    constructor <;>
      simp [discover, hmiss, hw, providerChain, runChain, h1, h2x]
  · intro r h1 h2 h3
    have h3x : tryProvider env.google_trends = some r := by
      simp [tryProvider, h3]
    constructor <;>
      simp [discover, hmiss, hw, providerChain, runChain, h1, h2, h3x]
  · cases h1 : tryProvider env.serpapi <;>
      cases h2 : tryProvider env.keywordsurfer <;>
      cases h3 : tryProvider env.google_trends <;>
      simp [discover, hmiss, hw, providerChain, runChain, h1, h2, h3]

/-- Providers: first raises, second and third return truthy results. -/
def envP2W : ProviderEnv :=
  { serpapi := FetchOutcome.raises ("quota exceeded")
  , keywordsurfer := FetchOutcome.returns (some (keywordsurfer_result ("remote work")))
  , google_trends := FetchOutcome.returns (some (google_trends_result ("remote work"))) }

/-- Witness for C2: with P1 failing and P2, P3 succeeding, `discover`
returns exactly P2's result and never invokes P3. -/
theorem discover_provider_priority_witness :
    (discover envP2W ("now") emptyCache ("remote work")).1 =
      Except.ok (keywordsurfer_result ("remote work")) ∧
    (discover envP2W ("now") emptyCache ("remote work")).2.2 =
      [("serpapi"), ("keywordsurfer")] :=
  (discover_provider_priority envP2W ("now") emptyCache ("remote work") rfl rfl).2.1
    (keywordsurfer_result ("remote work")) rfl rfl

/-- C3: on a cache miss (with a working cache write), if every provider
fails then `discover` returns the fallback generator's result, which
has `source = "fallback_method"`, empty `top_urls`, all three metrics
equal to the unknown sentinel, a `generated_at` timestamp, and exactly
ten `related_queries` each containing the topic as a substring. -/
theorem discover_total_fallback (env : ProviderEnv) (now : String)
    (cache : CacheState) (topic : String)
    (hmiss : cache.entries (cacheFileName topic) = none)
    (hw : cache.writeFails (cacheFileName topic) = false)
    (h1 : tryProvider env.serpapi = none)
    (h2 : tryProvider env.keywordsurfer = none)
    (h3 : tryProvider env.google_trends = none) :
    (discover env now cache topic).1 = Except.ok (fallback_method topic now) ∧
    (fallback_method topic now).source = "fallback_method" ∧
    (fallback_method topic now).top_urls = [] ∧
    (fallback_method topic now).search_volume = MetricValue.unknown ∧
    (fallback_method topic now).cpc = MetricValue.unknown ∧
    (fallback_method topic now).competition = MetricValue.unknown ∧
    (fallback_method topic now).generated_at = some now ∧
    (fallback_method topic now).related_queries.length = 10 ∧
    ∀ q ∈ (fallback_method topic now).related_queries,
      ∃ a b : String, q = a ++ topic ++ b := by
  refine ⟨?_, rfl, rfl, rfl, rfl, rfl, rfl, rfl, ?_⟩
  · simp [discover, hmiss, hw, providerChain, runChain, h1, h2, h3]
  · intro q hq
    simp [fallback_method] at hq
    rcases hq with rfl | rfl | rfl | rfl | rfl | rfl | rfl | rfl | rfl | rfl
    · exact ⟨"", " guide", rfl⟩
    · exact ⟨"how to ", "", (String.append_empty _).symm⟩
    · exact ⟨"best ", " practices", rfl⟩
    · exact ⟨"", " examples", rfl⟩
    · exact ⟨"", " tutorial", rfl⟩
    · exact ⟨"", " for beginners", rfl⟩
    · exact ⟨"advanced ", "", (String.append_empty _).symm⟩
    · exact ⟨"", " tips", rfl⟩
    · exact ⟨"", " 2025", rfl⟩
    · exact ⟨"", " tools", rfl⟩

/-- Witness for C3 on topic `"espresso machines"` with all providers
raising. -/
theorem discover_total_fallback_witness :
    (discover envAllFailW ("now") emptyCache ("espresso machines")).1 =
      Except.ok (fallback_method ("espresso machines") ("now")) ∧
    (fallback_method ("espresso machines") ("now")).related_queries.length = 10 :=
  ⟨(discover_total_fallback envAllFailW ("now") emptyCache ("espresso machines")
      rfl rfl rfl rfl rfl).1,
   (discover_total_fallback envAllFailW ("now") emptyCache ("espresso machines")
      rfl rfl rfl rfl rfl).2.2.2.2.2.2.2.1⟩

/-- C6: starting from an empty cache, a second `discover` call on the
same topic returns the same outcome as the first, leaves the cache as
the first call left it, and invokes no provider and not the fallback
generator (empty invocation trace), whatever the providers do and even
at a different current time. -/
theorem discover_idempotent_second_call (env : ProviderEnv) (now now2 : String)
    (topic : String) :
    discover env now2 (discover env now emptyCache topic).2.1 topic =
      ((discover env now emptyCache topic).1,
       (discover env now emptyCache topic).2.1, []) := by
  cases hc : (providerChain env).1 <;> simp [discover, emptyCache, hc]

/-- C5: `run` catches the first raising stage, returns an error-status
result carrying that exception's message without re-raising, and
invokes no stage later in the fixed sequence than the failing one (the
invocation trace stops exactly at the failing stage).  One conjunct per
possible failing stage. -/
theorem run_abort_on_stage_error {K C I U M S E : Type}
    (env : StageEnv K C I U M S E) (topic : String) (m : String) :
    (env.keyword_discover topic = Except.error m →
       run env topic = (PipelineRunResult.error m, [("keyword")])) ∧
    (∀ k, env.keyword_discover topic = Except.ok k →
       env.content_create k = Except.error m →
       run env topic = (PipelineRunResult.error m, [("keyword"), ("content")])) ∧
    (∀ k c, env.keyword_discover topic = Except.ok k →
       env.content_create k = Except.ok c →
       env.grammar_check c = Except.error m →
       run env topic =
         (PipelineRunResult.error m, [("keyword"), ("content"), ("grammar")])) ∧
    (∀ k c c2, env.keyword_discover topic = Except.ok k →
       env.content_create k = Except.ok c →
       env.grammar_check c = Except.ok c2 →
       env.visual_generate c2 = Except.error m →
       run env topic =
         (PipelineRunResult.error m,
          [("keyword"), ("content"), ("grammar"), ("visual")])) ∧
    (∀ k c c2 i, env.keyword_discover topic = Except.ok k →
       env.content_create k = Except.ok c →
       env.grammar_check c = Except.ok c2 →
       env.visual_generate c2 = Except.ok i →
       env.publish_publish c2 i = Except.error m →
       run env topic =
         (PipelineRunResult.error m,
          [("keyword"), ("content"), ("grammar"), ("visual"), ("publish")])) ∧
    (∀ k c c2 i u, env.keyword_discover topic = Except.ok k →
       env.content_create k = Except.ok c →
       env.grammar_check c = Except.ok c2 →
       env.visual_generate c2 = Except.ok i →
       env.publish_publish c2 i = Except.ok u →
       env.monetize_apply c2 u = Except.error m →
       run env topic =
         (PipelineRunResult.error m,
          [("keyword"), ("content"), ("grammar"), ("visual"), ("publish"),
           ("monetize")])) ∧
    (∀ k c c2 i u mv, env.keyword_discover topic = Except.ok k →
       env.content_create k = Except.ok c →
       env.grammar_check c = Except.ok c2 →
       env.visual_generate c2 = Except.ok i →
       env.publish_publish c2 i = Except.ok u →
       env.monetize_apply c2 u = Except.ok mv →
       env.social_promote u c2 = Except.error m →
       run env topic =
         (PipelineRunResult.error m,
          [("keyword"), ("content"), ("grammar"), ("visual"), ("publish"),
           ("monetize"), ("social")])) ∧
    (∀ k c c2 i u mv s, env.keyword_discover topic = Except.ok k →
       env.content_create k = Except.ok c →
       env.grammar_check c = Except.ok c2 →
       env.visual_generate c2 = Except.ok i →
       env.publish_publish c2 i = Except.ok u →
       env.monetize_apply c2 u = Except.ok mv →
       env.social_promote u c2 = Except.ok s →
       env.email_draft_stage u c2 = Except.error m →
       run env topic =
         (PipelineRunResult.error m,
          [("keyword"), ("content"), ("grammar"), ("visual"), ("publish"),
           ("monetize"), ("social"), ("email")])) ∧
    (∀ k c c2 i u mv s e, env.keyword_discover topic = Except.ok k →
       env.content_create k = Except.ok c →
       env.grammar_check c = Except.ok c2 →
       env.visual_generate c2 = Except.ok i →
       env.publish_publish c2 i = Except.ok u →
       env.monetize_apply c2 u = Except.ok mv →
       env.social_promote u c2 = Except.ok s →
       env.email_draft_stage u c2 = Except.ok e →
       env.analytics_setup_tracking u = Except.error m →
       run env topic =
         (PipelineRunResult.error m,
          [("keyword"), ("content"), ("grammar"), ("visual"), ("publish"),
           ("monetize"), ("social"), ("email"), ("analytics")])) := by
  refine ⟨?_, ?_, ?_, ?_, ?_, ?_, ?_, ?_, ?_⟩
  · intro h1
    simp [run, h1]
  · intro k h1 h2
    simp [run, h1, h2]
  · intro k c h1 h2 h3
    simp [run, h1, h2, h3]
  · intro k c c2 h1 h2 h3 h4
    simp [run, h1, h2, h3, h4]
  · intro k c c2 i h1 h2 h3 h4 h5
    simp [run, h1, h2, h3, h4, h5]
  · intro k c c2 i u h1 h2 h3 h4 h5 h6
    simp [run, h1, h2, h3, h4, h5, h6]
  · intro k c c2 i u mv h1 h2 h3 h4 h5 h6 h7
    simp [run, h1, h2, h3, h4, h5, h6, h7]
  · intro k c c2 i u mv s h1 h2 h3 h4 h5 h6 h7 h8
    simp [run, h1, h2, h3, h4, h5, h6, h7, h8]
  · intro k c c2 i u mv s e h1 h2 h3 h4 h5 h6 h7 h8 h9
    simp [run, h1, h2, h3, h4, h5, h6, h7, h8, h9]

/-- A stage environment over string stub values whose grammar stage
raises and whose other stages succeed. -/
def stageEnvGrammarFailW : StageEnv String String String String String String String :=
  { keyword_discover := fun _ => Except.ok ("kw")
  , content_create := fun _ => Except.ok ("draft content")
  , grammar_check := fun _ => Except.error ("grammar service unavailable")
  , visual_generate := fun _ => Except.ok ("imgs")
  , publish_publish := fun _ _ => Except.ok ("https://blog.example.com/p1")
  , monetize_apply := fun _ _ => Except.ok ("monetized")
  , social_promote := fun _ _ => Except.ok ("posts")
  , email_draft_stage := fun _ _ => Except.ok ("email")
  , analytics_setup_tracking := fun _ => Except.ok () }

/-- Witness for C5: with `grammar.check` raising, `run` returns the
error-status result with that message and stages 4-9 never run. -/
theorem run_abort_on_stage_error_witness :
    run stageEnvGrammarFailW ("remote work") =
      (PipelineRunResult.error ("grammar service unavailable"),
       [("keyword"), ("content"), ("grammar")]) :=
  (run_abort_on_stage_error stageEnvGrammarFailW ("remote work")
      ("grammar service unavailable")).2.2.1 ("kw") ("draft content") rfl rfl rfl

/-- C7: when all nine stages succeed, `run` returns the success-status
result built from exactly the publish, social and email stage values
(the monetization stage value `mv` is consumed but does not appear in
the result), and all nine stages run in the fixed order. -/
theorem run_success_result {K C I U M S E : Type}
    (env : StageEnv K C I U M S E) (topic : String)
    (k : K) (c c2 : C) (i : I) (u : U) (mv : M) (s : S) (e : E)
    (h1 : env.keyword_discover topic = Except.ok k)
    (h2 : env.content_create k = Except.ok c)
    (h3 : env.grammar_check c = Except.ok c2)
    (h4 : env.visual_generate c2 = Except.ok i)
    (h5 : env.publish_publish c2 i = Except.ok u)
    (h6 : env.monetize_apply c2 u = Except.ok mv)
    (h7 : env.social_promote u c2 = Except.ok s)
    (h8 : env.email_draft_stage u c2 = Except.ok e)
    (h9 : env.analytics_setup_tracking u = Except.ok ()) :
    run env topic = (PipelineRunResult.success u s e, stageOrder) := by
  simp [run, h1, h2, h3, h4, h5, h6, h7, h8, h9]

/-- A stage environment over string stub values where every stage
succeeds. -/
def stageEnvAllOkW : StageEnv String String String String String String String :=
  { keyword_discover := fun _ => Except.ok ("kw")
  , content_create := fun _ => Except.ok ("draft content")
  , grammar_check := fun _ => Except.ok ("checked content")
  , visual_generate := fun _ => Except.ok ("imgs")
  , publish_publish := fun _ _ => Except.ok ("https://blog.example.com/remote-work")
  , monetize_apply := fun _ _ => Except.ok ("monetized")
  , social_promote := fun _ _ => Except.ok ("posts")
  , email_draft_stage := fun _ _ => Except.ok ("email")
  , analytics_setup_tracking := fun _ => Except.ok () }

/-- Witness for C7 on topic `"remote work"` with stub stage values. -/
theorem run_success_result_witness :
    run stageEnvAllOkW ("remote work") =
      (PipelineRunResult.success ("https://blog.example.com/remote-work")
        ("posts") ("email"), stageOrder) :=
  run_success_result stageEnvAllOkW ("remote work") ("kw") ("draft content")
    ("checked content") ("imgs") ("https://blog.example.com/remote-work")
    ("monetized") ("posts") ("email") rfl rfl rfl rfl rfl rfl rfl rfl rfl

/-- Providers that all return truthy results. -/
def envAllOkW : ProviderEnv :=
  { serpapi := FetchOutcome.returns (some (serpapi_result ("t")))
  , keywordsurfer := FetchOutcome.returns (some (keywordsurfer_result ("t")))
  , google_trends := FetchOutcome.returns (some (google_trends_result ("t"))) }

/-- A cache whose entry for every file name exists but cannot be
read. -/
def badReadCacheW : CacheState :=
  { entries := fun _ => some (serpapi_result ("t"))
  , readFails := fun _ => true
  , writeFails := fun _ => false }

/-- A cache with no entries where every write raises. -/
def badWriteCacheW : CacheState :=
  { entries := fun _ => none
  , readFails := fun _ => false
  , writeFails := fun _ => true }

/-- Counterexample to C1 as stated: with a working provider chain, a
failing cache read makes `discover` raise (instead of treating the
entry as absent and proceeding to the providers — no provider is
invoked), and a failing cache write makes `discover` raise instead of
returning the computed `KeywordResult`. -/
theorem discover_cache_io_counterexample :
    (discover envAllOkW ("now") badReadCacheW ("t")).1 =
      Except.error ("cache read failure") ∧
    (discover envAllOkW ("now") badReadCacheW ("t")).2.2 = [] ∧
    (discover envAllOkW ("now") badWriteCacheW ("t")).1 =
      Except.error ("cache write failure") ∧
    (discover envAllOkW ("now") badWriteCacheW ("t")).1 ≠
      Except.ok (serpapi_result ("t")) :=
  ⟨rfl, rfl, rfl, fun h => Except.noConfusion h⟩

/-- C1 amended: cache I/O failures inside `discover` are not caught
there — a failure reading an existing cache entry aborts `discover`
before any provider is invoked, and a failure writing the freshly
computed entry aborts `discover` instead of returning the computed
result; such exceptions are only caught at the orchestrator
boundary. -/
theorem discover_cache_io_failure_propagates (env : ProviderEnv) (now : String)
    (cache : CacheState) (topic : String) :
    (∀ r : KeywordResult, cache.entries (cacheFileName topic) = some r →
        cache.readFails (cacheFileName topic) = true →
        discover env now cache topic =
          (Except.error ("cache read failure"), cache, [])) ∧
    (cache.entries (cacheFileName topic) = none →
        cache.writeFails (cacheFileName topic) = true →
        (discover env now cache topic).1 =
          Except.error ("cache write failure")) := by
  constructor
  · intro r he hr
    simp [discover, he, hr]
  · intro he hw
    simp [discover, he, hw]

/-- Witness for the amended C1 at concrete faulty caches. -/
theorem discover_cache_io_failure_propagates_witness :
    discover envAllOkW ("now") badReadCacheW ("t") =
      (Except.error ("cache read failure"), badReadCacheW, []) ∧
    (discover envAllOkW ("now") badWriteCacheW ("t")).1 =
      Except.error ("cache write failure") :=
  ⟨(discover_cache_io_failure_propagates envAllOkW ("now") badReadCacheW ("t")).1
      (serpapi_result ("t")) rfl rfl,
   (discover_cache_io_failure_propagates envAllOkW ("now") badWriteCacheW ("t")).2
      rfl rfl⟩
